import Mathlib

/-!
Verification development for the invoice printing service
(`src/api/index.js` and the two unnamed near-identical server variants).

The JavaScript source is shallowly embedded: JS numbers are modelled as
`JsNum` (either NaN or an exact rational; double rounding is not modelled,
which is exact for every value the claims evaluate), heterogeneous request
fields as `JsValue`, and the effectful functions (`printPDFBuffer`,
`generatePDF`, the POST handler) as pure functions over an explicit
environment of injected outcomes, returning their result together with a
trace of the externally visible actions they performed.
-/

section

attribute [local semireducible] Rat.mul Rat.add Rat.sub Rat.inv Rat.ofScientific

namespace Printing

/-- A JS number: NaN or an exact rational value. -/
inductive JsNum where
  | nan : JsNum
  | num : ℚ → JsNum
deriving DecidableEq, Repr

/-- A heterogeneous JS request-body field: a string, a number, or undefined
(the latter covers missing fields). -/
inductive JsValue where
  | vstr : String → JsValue
  | vnum : ℚ → JsValue
  | vundef : JsValue
deriving DecidableEq, Repr

/-- Model of the JS idiom `x || 0` applied to a number: NaN (falsy) becomes 0;
0 stays 0; every other number is kept. -/
def JsNum.orZero : JsNum → JsNum
  | .nan => .num 0
  | .num q => .num q

/-- JS `+` on numbers: NaN is absorbing. -/
def jsAdd : JsNum → JsNum → JsNum
  | .nan, _ => .nan
  | .num _, .nan => .nan
  | .num a, .num b => .num (a + b)

/-- JS `*` on numbers: NaN is absorbing. -/
def jsMul : JsNum → JsNum → JsNum
  | .nan, _ => .nan
  | .num _, .nan => .nan
  | .num a, .num b => .num (a * b)

/-- Numeric value of a decimal digit character. -/
def digitVal (c : Char) : Nat := c.toNat - 48

/-- Consume a maximal run of leading decimal digits. -/
def takeDigits : List Char → List Nat × List Char
  | [] => ([], [])
  | c :: cs =>
    if c.isDigit then
      let p := takeDigits cs
      (digitVal c :: p.1, p.2)
    else ([], c :: cs)

/-- Value of a digit run read as a natural number. -/
def natOfDigits (ds : List Nat) : Nat := ds.foldl (fun a d => 10 * a + d) 0

/-- Value of a digit run read as a fractional part (first digit is tenths). -/
def fracOfDigits (ds : List Nat) : ℚ := ds.foldr (fun d a => ((d : ℚ) + a) / 10) 0

/-- The whitespace characters JS trims before parsing a number. -/
def isJsWhitespace (c : Char) : Bool :=
  c == ' ' || c == '\t' || c == '\n' || c == '\r'

/-- Model of JS `parseFloat` on a string: skip leading whitespace, an optional
sign, then the longest `digits [. digits]` run; NaN when no digit was read.
Exponent and Infinity forms are not modelled: every call site in the source
passes either a string stripped to the characters `[0-9.-]`, the literal
`"0.00"`, or a `toFixed(2)` output, none of which contain them. -/
def jsParseFloat (s : String) : JsNum :=
  let cs := s.toList.dropWhile isJsWhitespace
  let signed : Bool × List Char :=
    match cs with
    | '-' :: r => (true, r)
    | '+' :: r => (false, r)
    | _ => (false, cs)
  let p1 := takeDigits signed.2
  let ds2 : List Nat :=
    match p1.2 with
    | '.' :: r => (takeDigits r).1
    | _ => []
  if p1.1 = [] ∧ ds2 = [] then .nan
  else
    let v : ℚ := (natOfDigits p1.1 : ℚ) + fracOfDigits ds2
    .num (if signed.1 then -v else v)

/-- `parseFloat` applied to an arbitrary JS value: a number parses to itself,
`undefined` stringifies to `"undefined"` and parses to NaN. -/
def jsParseFloatV : JsValue → JsNum
  | .vstr s => jsParseFloat s
  | .vnum q => .num q
  | .vundef => .nan

/-- Numeric value of a hexadecimal digit character, if it is one. -/
def hexVal (c : Char) : Option Nat :=
  if c.isDigit then some (c.toNat - 48)
  else if 'a' ≤ c ∧ c ≤ 'f' then some (c.toNat - 87)
  else if 'A' ≤ c ∧ c ≤ 'F' then some (c.toNat - 55)
  else none

/-- Consume a maximal run of leading hexadecimal digits. -/
def takeHexDigits : List Char → List Nat × List Char
  | [] => ([], [])
  | c :: cs =>
    match hexVal c with
    | some d =>
      let p := takeHexDigits cs
      (d :: p.1, p.2)
    | none => ([], c :: cs)

/-- Value of a hex digit run read as a natural number. -/
def natOfHexDigits (ds : List Nat) : Nat := ds.foldl (fun a d => 16 * a + d) 0

/-- Model of JS `parseInt` (no explicit radix) on a character list: leading
whitespace, optional sign, then either a `0x`/`0X` hexadecimal run or a
decimal digit run; `none` models NaN. -/
def jsParseIntList (l : List Char) : Option ℤ :=
  let cs := l.dropWhile isJsWhitespace
  let signed : Bool × List Char :=
    match cs with
    | '-' :: r => (true, r)
    | '+' :: r => (false, r)
    | _ => (false, cs)
  let core : Option Nat :=
    match signed.2 with
    | '0' :: 'x' :: r =>
      let p := takeHexDigits r
      if p.1 = [] then none else some (natOfHexDigits p.1)
    | '0' :: 'X' :: r =>
      let p := takeHexDigits r
      if p.1 = [] then none else some (natOfHexDigits p.1)
    | r =>
      let p := takeDigits r
      if p.1 = [] then none else some (natOfDigits p.1)
  match core with
  | none => none
  | some n => some (if signed.1 then -(n : ℤ) else (n : ℤ))

/-- Truncation of a rational toward zero (the integer JS obtains when
`parseInt` reads the plain decimal rendering of a number). -/
def ratTrunc (q : ℚ) : ℤ := if 0 ≤ q then q.floor else q.ceil

/-- `parseInt` applied to an arbitrary JS value (the value is stringified
first; for a plainly-rendered number that truncates toward zero). -/
def jsParseIntV : JsValue → Option ℤ
  | .vstr s => jsParseIntList s.toList
  | .vnum q => some (ratTrunc q)
  | .vundef => none

/-- Two-digit zero-padded decimal rendering of `k % 100`. -/
def pad2 (k : Nat) : String :=
  String.mk [Nat.digitChar (k / 10 % 10), Nat.digitChar (k % 10)]

/-- Absolute value of a rational, written out so that it evaluates inside the
kernel. -/
def ratAbs (q : ℚ) : ℚ := if q < 0 then -q else q

/-- Model of `Number.prototype.toFixed(2)` (ECMA-262): NaN renders as
`"NaN"`; otherwise the sign is taken from the value, the absolute value is
rounded to hundredths (ties away from zero, i.e. toward the larger magnitude
after the sign split), and rendered as `intPart ++ "." ++ two digits`. -/
def toFixed2 : JsNum → String
  | .nan => "NaN"
  | .num q =>
    let m : Nat := (ratAbs q * 100 + 1 / 2).floor.toNat
    (if q < 0 then "-" else "") ++ Nat.repr (m / 100) ++ "." ++ pad2 (m % 100)

/-- Model of `price.replace(/[^0-9.-]+/g, "")`: keep only digits, `.`, `-`. -/
def stripNonNumeric (s : String) : String :=
  String.mk (s.toList.filter (fun c => c.isDigit || c == '.' || c == '-'))

/-! ### The money normalizer (`POST /api/printing`, identical in all three variants) -/

/-- A raw request line item: `name`, untyped `price` and `quantity`, and any
further fields the caller sent (`extra`), which the spread `{...item, ...}`
carries through unchanged. -/
structure RawItem where
  name : JsValue
  price : JsValue
  quantity : JsValue
  extra : List (String × JsValue)
deriving DecidableEq, Repr

/-- A normalized line item as built by the handler's `map`: the untouched
fields plus the rewritten `price`/`quantity` and the added `subtotal`. -/
structure NormItem where
  name : JsValue
  extra : List (String × JsValue)
  price : String
  quantity : String
  subtotal : String
deriving DecidableEq, Repr

/-- The handler's price ternary:
`typeof price === "string" && price !== "0.00" ?
 parseFloat(price.replace(/[^0-9.-]+/g, "")) : parseFloat(price) || 0`.
Note the then-branch has no `|| 0` guard. -/
def parsedPrice : JsValue → JsNum
  | .vstr s =>
    if s = "0.00" then (jsParseFloat s).orZero
    else jsParseFloat (stripNonNumeric s)
  | .vnum q => (JsNum.num q).orZero
  | .vundef => JsNum.nan.orZero

/-- The handler's quantity line: `parseInt(item.quantity) || 0`. -/
def parsedQuantity (v : JsValue) : ℤ := (jsParseIntV v).getD 0

/-- One step of the handler's `items.map`: compute price, quantity and
subtotal, and rebuild the item via spread. -/
def normalizeItem (it : RawItem) : NormItem :=
  let price := parsedPrice it.price
  let quantity := parsedQuantity it.quantity
  let subtotal := jsMul (JsNum.num (quantity : ℚ)) price
  ⟨it.name, it.extra, toFixed2 price, toString quantity, toFixed2 subtotal⟩

/-- The handler's `itemsWithSubtotals`. -/
def normalizeItems (items : List RawItem) : List NormItem :=
  items.map normalizeItem

/-- The handler's `calculatedTotal`: re-parse every subtotal string, reduce
with `+` from 0, and format with `toFixed(2)`. -/
def calculatedTotal (norm : List NormItem) : String :=
  toFixed2 (norm.foldl (fun sum it => jsAdd sum (jsParseFloat it.subtotal)) (.num 0))

/-- Mathematical sum of a list of JS numbers (right fold from 0), used to
state that the reduce computes the sum of the subtotals. -/
def jsSum (l : List JsNum) : JsNum := l.foldr jsAdd (.num 0)

/-! ### The local print dispatcher (`printPDFBuffer`, src/unnamed/part_000) -/

/-- A dispatcher result value: `printPDFBuffer` never throws past its
boundary, it always returns one of these. -/
structure PrintResult where
  success : Bool
  message : String
deriving DecidableEq, Repr

deriving instance DecidableEq for Except

/-- Environment of a `printPDFBuffer` call: what the file system, platform
and subprocess would answer. `execResult` is `.error msg` when `execAsync`
rejects (e.g. the command exits non-zero) and `.ok (stdout, stderr)` when it
resolves; `unlinkThrows` is the outcome `fs.unlinkSync` would have. -/
structure PBEnv where
  tmpExists : Bool
  tmpdir : String
  platform : String
  now : Nat
  execResult : Except String (String × String)
  unlinkThrows : Option String
deriving DecidableEq, Repr

/-- Externally visible actions of a `printPDFBuffer` call. -/
inductive PBAct where
  | writeFile (path : String)
  | exec (cmd : String)
  | unlink (path : String)
  | logError (msg : String)
deriving DecidableEq, Repr

/-- True exactly on the `unlink` action. -/
def PBAct.isUnlink : PBAct → Bool
  | .unlink _ => true
  | _ => false

/-- True exactly on the `writeFile` action. -/
def PBAct.isWrite : PBAct → Bool
  | .writeFile _ => true
  | _ => false

/-- The temporary file name `path.join(os.tmpdir(), "temp-print-" ++
Date.now() ++ ".pdf")` (POSIX join). -/
def tempFileName (env : PBEnv) : String :=
  env.tmpdir ++ "/temp-print-" ++ Nat.repr env.now ++ ".pdf"

/-- The platform-specific print command, `none` for unsupported platforms. -/
def printCommand (platform printerName tempFile : String) : Option String :=
  if platform = "darwin" ∨ platform = "linux" then
    some ("lp -d \"" ++ printerName ++ "\" \"" ++ tempFile ++ "\"")
  else if platform = "win32" then
    some ("powershell -Command \"Start-Process -FilePath '" ++ tempFile ++
      "' -Verb Print -PassThru | Out-Null\"")
  else none

/-- `printPDFBuffer(pdfBuffer, printerName)` of src/unnamed/part_000:
serverless guard (`!fs.existsSync("/tmp")`), temp-file write, platform
dispatch, `execAsync`, unlink inside its own try/catch (log-only failure),
stderr check. An `execAsync` rejection jumps to the outer catch, which
returns without unlinking; the unsupported-platform return also skips the
unlink. -/
def printPDFBuffer (env : PBEnv) (printerName : String) :
    PrintResult × List PBAct :=
  if env.tmpExists = false then
    (⟨false, "Printing is not supported in serverless environment."⟩, [])
  else
    let tempFile := tempFileName env
    match printCommand env.platform printerName tempFile with
    | none =>
      (⟨false, "Unsupported platform: " ++ env.platform⟩,
        [PBAct.writeFile tempFile])
    | some cmd =>
      match env.execResult with
      | .error msg =>
        (⟨false, "Printing error: " ++ msg⟩,
          [PBAct.writeFile tempFile, PBAct.exec cmd])
      | .ok out =>
        let cleanup : List PBAct :=
          match env.unlinkThrows with
          | some m => [PBAct.logError ("Error cleaning up temporary file: " ++ m)]
          | none => []
        let acts := [PBAct.writeFile tempFile, PBAct.exec cmd,
          PBAct.unlink tempFile] ++ cleanup
        if out.2 ≠ "" then (⟨false, "Printing error: " ++ out.2⟩, acts)
        else (⟨true, "Print job submitted successfully"⟩, acts)

/-- Replace the injected unlink outcome of an environment. -/
def withUnlink (env : PBEnv) (u : Option String) : PBEnv :=
  ⟨env.tmpExists, env.tmpdir, env.platform, env.now, env.execResult, u⟩

/-! ### The retrying template renderer (`generatePDF`, src/unnamed/part_000) -/

/-- Outcome of one launch-load-export attempt: a throw before the browser
was (re)assigned (template read, compile, `puppeteer.launch`), a throw after
(page creation, load, export), or a produced PDF buffer. -/
inductive AttemptOutcome where
  | failBeforeLaunch (msg : String)
  | failAfterLaunch (msg : String)
  | success (buf : Nat)
deriving DecidableEq, Repr

/-- Whether the attempt produced a buffer. -/
def AttemptOutcome.isSuccess : AttemptOutcome → Bool
  | .success _ => true
  | _ => false

/-- The `error.message` of a failed attempt. -/
def AttemptOutcome.msg : AttemptOutcome → String
  | .failBeforeLaunch m => m
  | .failAfterLaunch m => m
  | .success _ => ""

/-- Externally visible events of a `generatePDF` run: browser launched on
attempt `i`, `browser.close()` on the browser of attempt `i`, and the
`setTimeout` delay in milliseconds. -/
inductive GEv where
  | launch (i : Nat)
  | close (i : Nat)
  | wait (ms : Nat)
deriving DecidableEq, Repr

/-- The error thrown once `retryCount` reaches `maxRetries`:
`Failed to generate PDF after ${maxRetries} attempts: ${error.message}`. -/
def retryErrMsg (maxRetries : Nat) (msg : String) : String :=
  "Failed to generate PDF after " ++ Nat.repr maxRetries ++ " attempts: " ++ msg

/-- The delays of a trace. -/
def waitsOf (tr : List GEv) : List Nat :=
  tr.filterMap (fun e => match e with | .wait ms => some ms | _ => none)

/-- The `while (retryCount < maxRetries)` loop of `generatePDF`, fuel-indexed
(`fuel` bounds the remaining iterations; `generatePDF` supplies enough).
State: `retryCount` and the `browser` variable, which holds the browser of
the last attempt that got one — `browser.close()` does not reset it to null,
so a later attempt failing before launch closes the stale handle again (the
double close is swallowed by its own try/catch). Result `.ok none` models
the `undefined` the function returns when the guard is false on entry.
In the catch block the 2000 ms delay is awaited before the `finally` close
runs, so a non-final failed attempt traces `wait` before `close`. -/
def genLoop (att : Nat → AttemptOutcome) (maxRetries : Nat) :
    Nat → Nat → Option Nat → Except String (Option Nat) × List GEv
  | 0, _, _ => (.ok none, [])
  | fuel + 1, retryCount, browser =>
    if retryCount < maxRetries then
      match att retryCount with
      | .success buf =>
        (.ok (some buf), [.launch retryCount, .close retryCount])
      | .failAfterLaunch m =>
        if retryCount + 1 = maxRetries then
          (.error (retryErrMsg maxRetries m), [.launch retryCount, .close retryCount])
        else
          let r := genLoop att maxRetries fuel (retryCount + 1) (some retryCount)
          (r.1, .launch retryCount :: .wait 2000 :: .close retryCount :: r.2)
      | .failBeforeLaunch m =>
        let closes : List GEv :=
          match browser with
          | some b => [.close b]
          | none => []
        if retryCount + 1 = maxRetries then
          (.error (retryErrMsg maxRetries m), closes)
        else
          let r := genLoop att maxRetries fuel (retryCount + 1) browser
          (r.1, .wait 2000 :: closes ++ r.2)
    else (.ok none, [])

/-- `generatePDF(templateData, maxRetries)`: run the retry loop from attempt
0 with no browser yet. The attempt outcomes are injected as `att`. -/
def generatePDF (att : Nat → AttemptOutcome) (maxRetries : Nat) :
    Except String (Option Nat) × List GEv :=
  genLoop att maxRetries maxRetries 0 none

/-- The declared default of the `maxRetries` parameter. -/
def defaultMaxRetries : Nat := 3

/-! ### The POST /api/printing handlers -/

/-- The JSON response the handler sends: HTTP status plus the body fields
(`success`, `error`, `printResult`, `message`; absent fields are `none`). -/
structure Response where
  status : Nat
  success : Bool
  error : Option String
  printResult : Option PrintResult
  message : Option String
deriving DecidableEq, Repr

/-- Dispatch calls a handler run performs. -/
inductive HAct where
  | dispatchCloud (printerId : String)
  | dispatchLocal (printerName : String)
deriving DecidableEq, Repr

/-- Request body of src/api/index.js: `{invoiceId, customerName, items,
printerId}`; `items` is `none` when missing/undefined, `printerId` is the
cloud print target (`none` when absent). -/
structure ReqBodyIndex where
  invoiceId : JsValue
  customerName : JsValue
  items : Option (List RawItem)
  printerId : Option String
deriving DecidableEq, Repr

/-- Request body of src/unnamed/part_000: `{invoiceId, customerName, items,
status, printName}`; `status` is the truthiness of the auto-print flag. -/
structure ReqBody000 where
  invoiceId : JsValue
  customerName : JsValue
  items : Option (List RawItem)
  status : Bool
  printName : String
deriving DecidableEq, Repr

/-- The TypeError message Node raises for `undefined.map(...)`. -/
def undefinedMapError : String :=
  "Cannot read properties of undefined (reading 'map')"

/-- The response message `printResult?.message || "PDF generated
successfully"`. -/
def responseMessage (printResult : Option PrintResult) : String :=
  match printResult with
  | some r => if r.message = "" then "PDF generated successfully" else r.message
  | none => "PDF generated successfully"

/-- `POST /api/printing` of src/api/index.js. The outcomes of `generatePDF`
and `printPDFBuffer` (the PrintNode call) are injected: `render` is the
rendering outcome, `dispatchResult` what the dispatcher would return. A
missing `items` throws in `items.map`, which the catch turns into a 500;
a render rejection likewise; otherwise the response is 200 with
`success: true`, dispatching only when `printerId` is truthy. -/
def postPrintingIndex (body : ReqBodyIndex) (render : Except String Nat)
    (dispatchResult : PrintResult) : Response × List HAct :=
  match body.items with
  | none => (⟨500, false, some undefinedMapError, none, none⟩, [])
  | some items =>
    let norm := normalizeItems items
    let _total := calculatedTotal norm
    match render with
    | .error e => (⟨500, false, some e, none, none⟩, [])
    | .ok _ =>
      match body.printerId with
      | some pid =>
        if pid = "" then
          (⟨200, true, none, none, some (responseMessage none)⟩, [])
        else
          (⟨200, true, none, some dispatchResult,
            some (responseMessage (some dispatchResult))⟩,
            [HAct.dispatchCloud pid])
      | none => (⟨200, true, none, none, some (responseMessage none)⟩, [])

/-- `POST /api/printing` of src/unnamed/part_000: identical shape, with the
truthiness of `status` selecting local dispatch to `printName`. -/
def postPrinting000 (body : ReqBody000) (render : Except String Nat)
    (dispatchResult : PrintResult) : Response × List HAct :=
  match body.items with
  | none => (⟨500, false, some undefinedMapError, none, none⟩, [])
  | some items =>
    let norm := normalizeItems items
    let _total := calculatedTotal norm
    match render with
    | .error e => (⟨500, false, some e, none, none⟩, [])
    | .ok _ =>
      if body.status then
        (⟨200, true, none, some dispatchResult,
          some (responseMessage (some dispatchResult))⟩,
          [HAct.dispatchLocal body.printName])
      else (⟨200, true, none, none, some (responseMessage none)⟩, [])

/-- Substring test on character lists (is `sub` a contiguous infix?). -/
def listHasSub (l sub : List Char) : Bool :=
  match l with
  | [] => sub.isEmpty
  | _ :: t => sub.isPrefixOf l || listHasSub t sub

/-- Substring test on strings. -/
def containsSub (s sub : String) : Bool := listHasSub s.toList sub.toList

/-! ### Concrete fixtures used by the claim theorems -/

/-- The spec's worked scenario items. -/
def demoItems : List RawItem :=
  [⟨.vstr "Widget", .vstr "$10.00", .vstr "2", []⟩,
   ⟨.vstr "Gadget", .vnum 5, .vstr "3", []⟩]

/-- Whether a price value takes the handler ternary's else branch
(`parseFloat(price) || 0`): every non-string, and the literal `"0.00"`. -/
def inElseBranch : JsValue → Bool
  | .vstr s => s == "0.00"
  | _ => true

/-- An item with a non-numeric textual price. -/
def c2Item : RawItem := ⟨.vstr "A", .vstr "abc", .vstr "2", []⟩

/-- An item with a negative quantity string. -/
def c8Item : RawItem := ⟨.vstr "B", .vnum 5, .vstr "-2", []⟩

/-- An item with an unparsable quantity and a numeric price. -/
def c8WItem : RawItem := ⟨.vstr "W", .vnum 5, .vstr "zz", []⟩

/-- A one-item list carrying an extra field. -/
def c10Items : List RawItem :=
  [⟨.vstr "Widget", .vstr "$10.00", .vstr "2", [("sku", .vstr "S1")]⟩]

/-- Attempt outcomes that always fail after launch. -/
def attAllFail : Nat → AttemptOutcome := fun _ => .failAfterLaunch "boom"

/-- An environment whose `/tmp` existence check fails. -/
def serverlessEnv : PBEnv := ⟨false, "/tmp", "linux", 1, .ok ("", ""), none⟩

/-- An environment where the print command's subprocess rejects. -/
def execFailEnv : PBEnv := ⟨true, "/tmp", "linux", 123, .error "Command failed: lp", none⟩

/-- An environment where the print command's subprocess resolves cleanly. -/
def execOkEnv : PBEnv := ⟨true, "/tmp", "linux", 7, .ok ("request id is X", ""), none⟩

/-- An index.js request body whose `items` field is missing. -/
def missingItemsBody : ReqBodyIndex := ⟨.vstr "INV-1", .vstr "Alice", none, some "p1"⟩

/-- A part_000 request body asking for auto-print. -/
def c4Body : ReqBody000 :=
  ⟨.vstr "I1", .vstr "Ann", some [⟨.vstr "Pen", .vnum 2, .vnum 3, []⟩], true, "HP"⟩

/-- An index.js request body with no print target. -/
def c9Body : ReqBodyIndex := ⟨.vstr "I2", .vstr "Bob", some [], none⟩

end Printing




namespace Printing

/-! ### Helper lemmas -/

/-- Adding the number 0 on the right is the identity. -/
theorem jsAdd_num_zero_right (x : JsNum) : jsAdd x (.num 0) = x := by
  cases x <;> simp [jsAdd]

/-- Adding the number 0 on the left is the identity. -/
theorem jsAdd_num_zero_left (x : JsNum) : jsAdd (.num 0) x = x := by
  cases x <;> simp [jsAdd]

/-- JS addition is associative. -/
theorem jsAdd_assoc (x y z : JsNum) : jsAdd (jsAdd x y) z = jsAdd x (jsAdd y z) := by
  cases x <;> cases y <;> cases z <;> simp [jsAdd, add_assoc]

/-- The handler's reduce over subtotal strings computes the sum of the
parsed subtotals. -/
theorem foldl_parse (norm : List NormItem) : ∀ init,
    norm.foldl (fun sum it => jsAdd sum (jsParseFloat it.subtotal)) init
      = jsAdd init (jsSum (norm.map (fun it => jsParseFloat it.subtotal))) := by
  induction norm with
  | nil => intro init; simp [jsSum, jsAdd_num_zero_right]
  | cons a t ih =>
    intro init
    simp only [List.foldl_cons, List.map_cons]
    rw [ih]
    show jsAdd (jsAdd init (jsParseFloat a.subtotal)) _ = _
    rw [jsAdd_assoc]
    rfl

/-- `Nat.digitChar` of a value below ten is a digit character. -/
theorem digitChar_isDigit (d : Nat) (h : d < 10) : (Nat.digitChar d).isDigit = true := by
  interval_cases d <;> decide

/-- `x || 0` never yields NaN. -/
theorem orZero_ne_nan (x : JsNum) : x.orZero ≠ JsNum.nan := by
  cases x <;> simp [JsNum.orZero]

/-- Every non-NaN `toFixed(2)` rendering ends in a dot and two digits. -/
theorem toFixed2_num_shape (q : ℚ) :
    ∃ intPart d1 d2, toFixed2 (JsNum.num q) = intPart ++ "." ++ String.mk [d1, d2]
      ∧ d1.isDigit = true ∧ d2.isDigit = true := by
  refine ⟨(if q < 0 then "-" else "") ++
      Nat.repr ((ratAbs q * 100 + 1 / 2).floor.toNat / 100),
    Nat.digitChar ((ratAbs q * 100 + 1 / 2).floor.toNat % 100 / 10 % 10),
    Nat.digitChar ((ratAbs q * 100 + 1 / 2).floor.toNat % 100 % 10),
    rfl, digitChar_isDigit _ (by omega), digitChar_isDigit _ (by omega)⟩

/-! ### Claims about the money normalizer -/

/-- Claim C1: for every items list, the computed invoice total is the sum of
the per-item subtotal values run through `toFixed(2)` (whose non-NaN
renderings always carry exactly two decimal digits); the empty list totals
"0.00"; and the spec's worked scenario yields subtotals "20.00", "15.00" and
total "35.00". -/
theorem c1_total_is_sum_of_subtotals :
    (∀ items : List RawItem,
      calculatedTotal (normalizeItems items) =
        toFixed2 (jsSum ((normalizeItems items).map (fun it => jsParseFloat it.subtotal))))
    ∧ calculatedTotal (normalizeItems []) = "0.00"
    ∧ (normalizeItems demoItems).map NormItem.subtotal = ["20.00", "15.00"]
    ∧ calculatedTotal (normalizeItems demoItems) = "35.00"
    ∧ ∀ q : ℚ, ∃ intPart d1 d2,
        toFixed2 (JsNum.num q) = intPart ++ "." ++ String.mk [d1, d2]
        ∧ d1.isDigit = true ∧ d2.isDigit = true := by
  refine ⟨?_, by decide, by decide, by decide, toFixed2_num_shape⟩
  intro items
  show toFixed2 _ = toFixed2 _
  rw [foldl_parse, jsAdd_num_zero_left]

/-- Claim C2 (defect evidence): the textual price "abc" strips to the empty
string, `parseFloat` gives NaN, and the string branch of the price ternary
has no `|| 0` guard, so the normalized price and subtotal render as "NaN" —
not the 0 both the spec and the else branch's own guard intend. The third
conjunct shows the guarded parse the claim describes would indeed give 0. -/
theorem c2_textual_price_parse_failure_yields_nan :
    parsedPrice (JsValue.vstr "abc") = JsNum.nan
    ∧ normalizeItem c2Item = ⟨.vstr "A", [], "NaN", "2", "NaN"⟩
    ∧ (jsParseFloatV (JsValue.vstr "abc")).orZero = JsNum.num 0 := by decide

/-- Claim C8 counterexample: the quantity string "-2" parses to -2, which is
negative and flows into the normalized item, refuting the `quantity ≥ 0`
invariant. -/
theorem c8_counterexample_negative_quantity :
    parsedQuantity (JsValue.vstr "-2") = -2
    ∧ parsedQuantity (JsValue.vstr "-2") < 0
    ∧ normalizeItem c8Item = ⟨.vstr "B", [], "5.00", "-2", "-10.00"⟩ := by decide

/-- Claim C8 (amended): quantity parse failures default to 0 (but parsed
quantities may be negative); a price taking the else branch (non-string or
the literal "0.00") is never NaN, its parse failures defaulting to 0; and
the subtotal field always equals `toFixed(2)` of quantity times parsed
price. -/
theorem c8_normalization_invariants (it : RawItem) :
    (jsParseIntV it.quantity = none → parsedQuantity it.quantity = 0)
    ∧ (inElseBranch it.price = true → parsedPrice it.price ≠ JsNum.nan)
    ∧ (normalizeItem it).subtotal =
        toFixed2 (jsMul (JsNum.num ((parsedQuantity it.quantity : ℤ) : ℚ))
          (parsedPrice it.price)) := by
  refine ⟨?_, ?_, rfl⟩
  · intro h; simp [parsedQuantity, h]
  · intro h
    cases hp : it.price with
    | vstr s =>
      have hs : s = "0.00" := by
        rw [hp] at h
        simpa [inElseBranch] using h
      rw [hs]
      simpa [parsedPrice] using orZero_ne_nan (jsParseFloat "0.00")
    | vnum q => simpa [parsedPrice] using orZero_ne_nan (JsNum.num q)
    | vundef => simpa [parsedPrice] using orZero_ne_nan JsNum.nan

/-- Claim C8 amended-theorem witness at a concrete item. -/
theorem c8_normalization_invariants_witness :
    parsedQuantity (JsValue.vstr "zz") = 0
    ∧ parsedPrice (JsValue.vnum 5) ≠ JsNum.nan
    ∧ (normalizeItem c8WItem).subtotal =
        toFixed2 (jsMul (JsNum.num ((parsedQuantity c8WItem.quantity : ℤ) : ℚ))
          (parsedPrice c8WItem.price)) :=
  ⟨(c8_normalization_invariants c8WItem).1 (by decide),
   (c8_normalization_invariants c8WItem).2.1 (by decide),
   (c8_normalization_invariants c8WItem).2.2⟩

/-- Claim C10: normalization is a per-item map, so it preserves the number
and order of items; each output item keeps `name` and every extra field
unchanged, while `price` becomes the parsed value under `toFixed(2)`,
`quantity` its decimal string, and `subtotal` is added. -/
theorem c10_normalization_frame (items : List RawItem) :
    (normalizeItems items).length = items.length
    ∧ ∀ i (h1 : i < items.length) (h2 : i < (normalizeItems items).length),
        ((normalizeItems items).get ⟨i, h2⟩).name = (items.get ⟨i, h1⟩).name
        ∧ ((normalizeItems items).get ⟨i, h2⟩).extra = (items.get ⟨i, h1⟩).extra
        ∧ ((normalizeItems items).get ⟨i, h2⟩).price =
            toFixed2 (parsedPrice (items.get ⟨i, h1⟩).price)
        ∧ ((normalizeItems items).get ⟨i, h2⟩).quantity =
            toString (parsedQuantity (items.get ⟨i, h1⟩).quantity)
        ∧ ((normalizeItems items).get ⟨i, h2⟩).subtotal =
            toFixed2 (jsMul (JsNum.num ((parsedQuantity (items.get ⟨i, h1⟩).quantity : ℤ) : ℚ))
              (parsedPrice (items.get ⟨i, h1⟩).price)) := by
  constructor
  · simp [normalizeItems]
  · intro i h1 h2
    have hg : (normalizeItems items).get ⟨i, h2⟩ = normalizeItem (items.get ⟨i, h1⟩) := by
      simp [normalizeItems, List.getElem_map]
    rw [hg]
    exact ⟨rfl, rfl, rfl, rfl, rfl⟩

/-- Claim C10 witness at a concrete one-item list. -/
theorem c10_normalization_frame_witness :
    ((normalizeItems c10Items).get ⟨0, by decide⟩).name = (c10Items.get ⟨0, by decide⟩).name
    ∧ ((normalizeItems c10Items).get ⟨0, by decide⟩).extra = [("sku", JsValue.vstr "S1")]
    ∧ ((normalizeItems c10Items).get ⟨0, by decide⟩).price = "10.00" := by
  have h := (c10_normalization_frame c10Items).2 0 (by decide) (by decide)
  refine ⟨h.1, ?_, ?_⟩
  · rw [h.2.1]; decide
  · rw [h.2.2.1]; decide

end Printing

namespace Printing

/-! ### Lemmas about the generatePDF retry loop -/

/-- `waitsOf` ignores a leading launch event. -/
theorem waitsOf_cons_launch (i : Nat) (tr : List GEv) :
    waitsOf (GEv.launch i :: tr) = waitsOf tr := rfl

/-- `waitsOf` ignores a leading close event. -/
theorem waitsOf_cons_close (i : Nat) (tr : List GEv) :
    waitsOf (GEv.close i :: tr) = waitsOf tr := rfl

/-- `waitsOf` keeps a leading wait event. -/
theorem waitsOf_cons_wait (ms : Nat) (tr : List GEv) :
    waitsOf (GEv.wait ms :: tr) = ms :: waitsOf tr := rfl

/-- `waitsOf` distributes over append. -/
theorem waitsOf_append (a b : List GEv) :
    waitsOf (a ++ b) = waitsOf a ++ waitsOf b := by
  simp [waitsOf, List.filterMap_append]

/-- One unfolding step of the loop, first-attempt success. -/
theorem genLoop_step_success (att : Nat → AttemptOutcome) (maxRetries fuel rc : Nat)
    (b : Option Nat) (buf : Nat) (h1 : rc < maxRetries) (hatt : att rc = .success buf) :
    genLoop att maxRetries (fuel + 1) rc b =
      (.ok (some buf), [GEv.launch rc, GEv.close rc]) := by
  simp [genLoop, h1, hatt]

/-- One unfolding step of the loop, final attempt failing after launch. -/
theorem genLoop_step_afterFinal (att : Nat → AttemptOutcome) (maxRetries fuel rc : Nat)
    (b : Option Nat) (m : String) (h1 : rc < maxRetries)
    (hatt : att rc = .failAfterLaunch m) (hm : rc + 1 = maxRetries) :
    genLoop att maxRetries (fuel + 1) rc b =
      (.error (retryErrMsg maxRetries m), [GEv.launch rc, GEv.close rc]) := by
  simp [genLoop, h1, hatt, hm]

/-- One unfolding step of the loop, non-final attempt failing after launch. -/
theorem genLoop_step_afterRetry (att : Nat → AttemptOutcome) (maxRetries fuel rc : Nat)
    (b : Option Nat) (m : String) (h1 : rc < maxRetries)
    (hatt : att rc = .failAfterLaunch m) (hm : ¬rc + 1 = maxRetries) :
    genLoop att maxRetries (fuel + 1) rc b =
      ((genLoop att maxRetries fuel (rc + 1) (some rc)).1,
        GEv.launch rc :: GEv.wait 2000 :: GEv.close rc ::
          (genLoop att maxRetries fuel (rc + 1) (some rc)).2) := by
  simp [genLoop, h1, hatt, hm]

/-- One unfolding step of the loop, final attempt failing before launch. -/
theorem genLoop_step_beforeFinal (att : Nat → AttemptOutcome) (maxRetries fuel rc : Nat)
    (b : Option Nat) (m : String) (h1 : rc < maxRetries)
    (hatt : att rc = .failBeforeLaunch m) (hm : rc + 1 = maxRetries) :
    genLoop att maxRetries (fuel + 1) rc b =
      (.error (retryErrMsg maxRetries m),
        match b with | some bb => [GEv.close bb] | none => []) := by
  cases b <;> simp [genLoop, h1, hatt, hm]

/-- One unfolding step of the loop, non-final attempt failing before launch. -/
theorem genLoop_step_beforeRetry (att : Nat → AttemptOutcome) (maxRetries fuel rc : Nat)
    (b : Option Nat) (m : String) (h1 : rc < maxRetries)
    (hatt : att rc = .failBeforeLaunch m) (hm : ¬rc + 1 = maxRetries) :
    genLoop att maxRetries (fuel + 1) rc b =
      ((genLoop att maxRetries fuel (rc + 1) b).1,
        GEv.wait 2000 :: ((match b with | some bb => [GEv.close bb] | none => []) ++
          (genLoop att maxRetries fuel (rc + 1) b).2)) := by
  cases b <;> simp [genLoop, h1, hatt, hm]

/-- Every browser the loop launches, it also closes. -/
theorem genLoop_closes (att : Nat → AttemptOutcome) (maxRetries : Nat) :
    ∀ fuel retryCount browser i,
      GEv.launch i ∈ (genLoop att maxRetries fuel retryCount browser).2 →
      GEv.close i ∈ (genLoop att maxRetries fuel retryCount browser).2 := by
  intro fuel
  induction fuel with
  | zero => intro rc b i h; simp [genLoop] at h
  | succ fuel ih =>
    intro rc b i h
    by_cases hrc : rc < maxRetries
    · cases hatt : att rc with
      | success buf =>
        rw [genLoop_step_success att maxRetries fuel rc b buf hrc hatt] at h ⊢
        simp at h
        subst h
        simp
      | failAfterLaunch m =>
        by_cases hm : rc + 1 = maxRetries
        · rw [genLoop_step_afterFinal att maxRetries fuel rc b m hrc hatt hm] at h ⊢
          simp at h
          subst h
          simp
        · rw [genLoop_step_afterRetry att maxRetries fuel rc b m hrc hatt hm] at h ⊢
          simp only [List.mem_cons] at h
          rcases h with h | h | h | h
          · simp at h
            subst h
            simp
          · simp at h
          · simp at h
          · have hc := ih (rc + 1) (some rc) i h
            simp [List.mem_cons, hc]
      | failBeforeLaunch m =>
        by_cases hm : rc + 1 = maxRetries
        · rw [genLoop_step_beforeFinal att maxRetries fuel rc b m hrc hatt hm] at h
          cases b <;> simp at h
        · rw [genLoop_step_beforeRetry att maxRetries fuel rc b m hrc hatt hm] at h ⊢
          cases b with
          | none =>
            simp only [List.nil_append, List.mem_cons] at h
            rcases h with h | h
            · simp at h
            · have hc := ih (rc + 1) none i h
              simp [List.mem_cons, hc]
          | some bb =>
            simp only [List.singleton_append, List.mem_cons] at h
            rcases h with h | h | h
            · simp at h
            · simp at h
            · have hc := ih (rc + 1) (some bb) i h
              simp [List.mem_cons, hc]
    · simp [genLoop, hrc] at h

/-- When every remaining attempt fails, the loop throws the attempt-count
error built from the last attempt's message, after one 2000 ms delay per
non-final remaining attempt. -/
theorem genLoop_allFail (att : Nat → AttemptOutcome) (maxRetries : Nat) :
    ∀ fuel rc b, rc < maxRetries → maxRetries ≤ fuel + rc →
      (∀ k, rc ≤ k → k < maxRetries → (att k).isSuccess = false) →
      (genLoop att maxRetries fuel rc b).1 =
        .error (retryErrMsg maxRetries (att (maxRetries - 1)).msg)
      ∧ waitsOf (genLoop att maxRetries fuel rc b).2 =
        List.replicate (maxRetries - 1 - rc) 2000 := by
  intro fuel
  induction fuel with
  | zero => intro rc b h1 h2 h3; omega
  | succ fuel ih =>
    intro rc b h1 h2 h3
    cases hatt : att rc with
    | success buf =>
      have hf := h3 rc le_rfl h1
      rw [hatt] at hf
      simp [AttemptOutcome.isSuccess] at hf
    | failAfterLaunch m =>
      by_cases hm : rc + 1 = maxRetries
      · have hrc : rc = maxRetries - 1 := by omega
        have hmsg : (att (maxRetries - 1)).msg = m := by
          rw [← hrc, hatt]
          rfl
        have hrep : maxRetries - 1 - rc = 0 := by omega
        rw [genLoop_step_afterFinal att maxRetries fuel rc b m h1 hatt hm]
        rw [hmsg, hrep]
        exact ⟨rfl, rfl⟩
      · have h1' : rc + 1 < maxRetries := by omega
        have h2' : maxRetries ≤ fuel + (rc + 1) := by omega
        have h3' : ∀ k, rc + 1 ≤ k → k < maxRetries → (att k).isSuccess = false :=
          fun k hk1 hk2 => h3 k (by omega) hk2
        have hih := ih (rc + 1) (some rc) h1' h2' h3'
        have hrep : maxRetries - 1 - rc = (maxRetries - 1 - (rc + 1)) + 1 := by omega
        rw [genLoop_step_afterRetry att maxRetries fuel rc b m h1 hatt hm]
        refine ⟨hih.1, ?_⟩
        rw [waitsOf_cons_launch, waitsOf_cons_wait, waitsOf_cons_close, hih.2, hrep,
          List.replicate_succ]
    | failBeforeLaunch m =>
      by_cases hm : rc + 1 = maxRetries
      · have hrc : rc = maxRetries - 1 := by omega
        have hmsg : (att (maxRetries - 1)).msg = m := by
          rw [← hrc, hatt]
          rfl
        have hrep : maxRetries - 1 - rc = 0 := by omega
        rw [genLoop_step_beforeFinal att maxRetries fuel rc b m h1 hatt hm]
        rw [hmsg, hrep]
        cases b with
        | none => exact ⟨rfl, rfl⟩
        | some bb => exact ⟨rfl, rfl⟩
      · have h1' : rc + 1 < maxRetries := by omega
        have h2' : maxRetries ≤ fuel + (rc + 1) := by omega
        have h3' : ∀ k, rc + 1 ≤ k → k < maxRetries → (att k).isSuccess = false :=
          fun k hk1 hk2 => h3 k (by omega) hk2
        have hih := ih (rc + 1) b h1' h2' h3'
        have hrep : maxRetries - 1 - rc = (maxRetries - 1 - (rc + 1)) + 1 := by omega
        rw [genLoop_step_beforeRetry att maxRetries fuel rc b m h1 hatt hm]
        refine ⟨hih.1, ?_⟩
        cases b with
        | none =>
          rw [List.nil_append, waitsOf_cons_wait, hih.2, hrep, List.replicate_succ]
        | some bb =>
          rw [List.singleton_append, waitsOf_cons_wait, waitsOf_cons_close, hih.2, hrep,
            List.replicate_succ]

/-- The loop returns the buffer of the first successful attempt. -/
theorem genLoop_firstSuccess (att : Nat → AttemptOutcome) (maxRetries : Nat) :
    ∀ fuel rc b k buf, rc ≤ k → k < maxRetries → maxRetries ≤ fuel + rc →
      (∀ j, rc ≤ j → j < k → (att j).isSuccess = false) →
      att k = .success buf →
      (genLoop att maxRetries fuel rc b).1 = .ok (some buf) := by
  intro fuel
  induction fuel with
  | zero => intro rc b k buf h1 h2 h3 h4 h5; omega
  | succ fuel ih =>
    intro rc b k buf h1 h2 h3 h4 h5
    have hrc : rc < maxRetries := by omega
    by_cases hk : rc = k
    · subst hk
      rw [genLoop_step_success att maxRetries fuel rc b buf hrc h5]
    · have hlt : rc < k := by omega
      have hf := h4 rc le_rfl hlt
      cases hatt : att rc with
      | success buf2 =>
        rw [hatt] at hf
        simp [AttemptOutcome.isSuccess] at hf
      | failAfterLaunch m =>
        have hm : ¬rc + 1 = maxRetries := by omega
        have hih := ih (rc + 1) (some rc) k buf (by omega) h2 (by omega)
          (fun j hj1 hj2 => h4 j (by omega) hj2) h5
        rw [genLoop_step_afterRetry att maxRetries fuel rc b m hrc hatt hm]
        exact hih
      | failBeforeLaunch m =>
        have hm : ¬rc + 1 = maxRetries := by omega
        have hih := ih (rc + 1) b k buf (by omega) h2 (by omega)
          (fun j hj1 hj2 => h4 j (by omega) hj2) h5
        rw [genLoop_step_beforeRetry att maxRetries fuel rc b m hrc hatt hm]
        exact hih

/-- Claim C3: with a positive attempt budget, the template renderer closes
every browser it launched; on persistent failure it returns the error naming
the attempt count (built from the final attempt's message) after a fixed
2000 ms delay between consecutive attempts; the first successful attempt's
buffer is returned; and the declared default budget is 3. -/
theorem c3_generatePDF_retries_and_releases (att : Nat → AttemptOutcome)
    (maxRetries : Nat) (h : 0 < maxRetries) :
    (∀ i, GEv.launch i ∈ (generatePDF att maxRetries).2 →
        GEv.close i ∈ (generatePDF att maxRetries).2)
    ∧ ((∀ k, k < maxRetries → (att k).isSuccess = false) →
        (generatePDF att maxRetries).1 =
          .error (retryErrMsg maxRetries (att (maxRetries - 1)).msg)
        ∧ waitsOf (generatePDF att maxRetries).2 =
          List.replicate (maxRetries - 1) 2000)
    ∧ (∀ k buf, k < maxRetries → (∀ j, j < k → (att j).isSuccess = false) →
        att k = .success buf →
        (generatePDF att maxRetries).1 = .ok (some buf))
    ∧ defaultMaxRetries = 3 := by
  refine ⟨fun i => genLoop_closes att maxRetries maxRetries 0 none i, ?_, ?_, rfl⟩
  · intro hall
    have hres := genLoop_allFail att maxRetries maxRetries 0 none h (by omega)
      (fun k _ hk2 => hall k hk2)
    refine ⟨hres.1, ?_⟩
    have h2 := hres.2
    rw [Nat.sub_zero] at h2
    exact h2
  · intro k buf hk hfail hsucc
    exact genLoop_firstSuccess att maxRetries maxRetries 0 none k buf (by omega) hk
      (by omega) (fun j _ hj => hfail j hj) hsucc

/-- Claim C3 witness: three attempts that always fail after launch. -/
theorem c3_generatePDF_retries_and_releases_witness :
    (generatePDF attAllFail 3).1 = .error (retryErrMsg 3 "boom")
    ∧ waitsOf (generatePDF attAllFail 3).2 = List.replicate 2 2000
    ∧ GEv.close 0 ∈ (generatePDF attAllFail 3).2 := by
  have h := c3_generatePDF_retries_and_releases attAllFail 3 (by decide)
  have hall : ∀ k, k < 3 → (attAllFail k).isSuccess = false := fun k _ => rfl
  refine ⟨(h.2.1 hall).1, (h.2.1 hall).2, ?_⟩
  exact h.1 0 (by decide)

end Printing

namespace Printing

/-! ### Claims about the dispatcher and the request orchestrator -/

/-- Claim C5 counterexample: the serverless short-circuit of
`printPDFBuffer` answers with exactly "Printing is not supported in
serverless environment." — a message that carries no retrieve/download
advice (that wording exists only in the unused file-path variant
`printPDF`). -/
theorem c5_counterexample_no_retrieval_advice :
    printPDFBuffer serverlessEnv "P" =
      (⟨false, "Printing is not supported in serverless environment."⟩, [])
    ∧ containsSub "Printing is not supported in serverless environment." "download" = false
    ∧ containsSub "Printing is not supported in serverless environment." "retrieve" = false
    ∧ containsSub "Please download the PDF and print locally." "download" = true := by
  decide

/-- Claim C5 (amended): when the temporary-directory existence check fails,
`printPDFBuffer` short-circuits to `{success:false}` with the serverless
message and performs no file write and no subprocess execution. -/
theorem c5_serverless_guard (env : PBEnv) (name : String)
    (h : env.tmpExists = false) :
    printPDFBuffer env name =
      (⟨false, "Printing is not supported in serverless environment."⟩, []) := by
  simp [printPDFBuffer, h]

/-- Claim C5 amended-theorem witness. -/
theorem c5_serverless_guard_witness :
    printPDFBuffer serverlessEnv "Printer-1" =
      (⟨false, "Printing is not supported in serverless environment."⟩, []) :=
  c5_serverless_guard serverlessEnv "Printer-1" rfl

/-- Claim C6 counterexample: when the print subprocess rejects (its command
exits non-zero), the outer catch returns without deleting the temporary
file: the trace holds the write but no unlink, so the file outlives the
call. -/
theorem c6_counterexample_temp_file_leak :
    printPDFBuffer execFailEnv "P" =
      (⟨false, "Printing error: Command failed: lp"⟩,
       [.writeFile "/tmp/temp-print-123.pdf",
        .exec "lp -d \"P\" \"/tmp/temp-print-123.pdf\""])
    ∧ ((printPDFBuffer execFailEnv "P").2.any PBAct.isWrite) = true
    ∧ ((printPDFBuffer execFailEnv "P").2.any PBAct.isUnlink) = false := by
  decide

/-- Claim C6 (amended): when the subprocess resolves (on a supported
platform), the temporary file is unlinked before returning — also on the
non-empty-stderr failure path — and a failing unlink is swallowed: the
returned result does not depend on the unlink outcome. When the subprocess
throws or the platform is unsupported, no unlink happens. -/
theorem c6_unlink_after_exec_resolves (env : PBEnv) (name : String)
    (out : String × String) (u : Option String)
    (h1 : env.tmpExists = true) (h2 : env.execResult = .ok out)
    (h3 : env.platform = "darwin" ∨ env.platform = "linux" ∨ env.platform = "win32") :
    PBAct.unlink (tempFileName env) ∈ (printPDFBuffer env name).2
    ∧ (printPDFBuffer (withUnlink env u) name).1 = (printPDFBuffer env name).1 := by
  have hcmd : ∃ cmd, printCommand env.platform name (tempFileName env) = some cmd := by
    rcases h3 with h | h | h <;> simp [printCommand, h]
  obtain ⟨cmd, hcmd⟩ := hcmd
  have e1 : (withUnlink env u).tmpExists = true := h1
  have e2 : (withUnlink env u).execResult = Except.ok out := h2
  have e3 : printCommand (withUnlink env u).platform name
      (tempFileName (withUnlink env u)) = some cmd := hcmd
  constructor
  · simp only [printPDFBuffer, h1, h2, hcmd]
    by_cases hs : out.2 = "" <;> simp [hs]
  · simp only [printPDFBuffer, h1, h2, hcmd, e1, e2, e3]
    by_cases hs : out.2 = "" <;> simp [hs]

/-- Claim C6 amended-theorem witness. -/
theorem c6_unlink_after_exec_resolves_witness :
    PBAct.unlink (tempFileName execOkEnv) ∈ (printPDFBuffer execOkEnv "P").2
    ∧ (printPDFBuffer (withUnlink execOkEnv (some "EPERM")) "P").1 =
      (printPDFBuffer execOkEnv "P").1 :=
  c6_unlink_after_exec_resolves execOkEnv "P" ("request id is X", "") (some "EPERM")
    rfl rfl (Or.inr (Or.inl rfl))

/-- Claim C7 counterexample: a missing items array reaches the catch-all and
is answered with HTTP 500 — not a 400-class status. -/
theorem c7_counterexample_missing_items_500 :
    (postPrintingIndex missingItemsBody (.ok 0) ⟨true, "ok"⟩).1.status = 500
    ∧ ((postPrintingIndex missingItemsBody (.ok 0) ⟨true, "ok"⟩).1.status < 400
        ∨ 500 ≤ (postPrintingIndex missingItemsBody (.ok 0) ⟨true, "ok"⟩).1.status)
    ∧ (postPrintingIndex missingItemsBody (.ok 0) ⟨true, "ok"⟩).1.success = false := by
  decide

/-- Claim C7 (amended): a missing/undefined items array makes `items.map`
throw, the handler's catch-all answers 500 with `{success:false, error}`
carrying the TypeError message, and a response is always produced (no
crash); there is no dedicated 400 validation. -/
theorem c7_missing_items_caught_as_500 (body : ReqBodyIndex)
    (render : Except String Nat) (d : PrintResult) (h : body.items = none) :
    postPrintingIndex body render d =
      (⟨500, false, some undefinedMapError, none, none⟩, []) := by
  simp [postPrintingIndex, h]

/-- Claim C7 amended-theorem witness. -/
theorem c7_missing_items_caught_as_500_witness :
    postPrintingIndex missingItemsBody (.ok 0) ⟨true, "ok"⟩ =
      (⟨500, false, some undefinedMapError, none, none⟩, []) :=
  c7_missing_items_caught_as_500 missingItemsBody (.ok 0) ⟨true, "ok"⟩ rfl

/-- Claim C4: whenever rendering succeeded, the part_000 handler responds
200 with overall `success: true` for every possible dispatch result — in
particular a failed dispatch — and the dispatch outcome is surfaced only as
the nested `printResult` object. -/
theorem c4_success_despite_dispatch_failure (body : ReqBody000)
    (its : List RawItem) (buf : Nat) (d : PrintResult)
    (h : body.items = some its) :
    ((postPrinting000 body (.ok buf) d).1.status = 200
      ∧ (postPrinting000 body (.ok buf) d).1.success = true)
    ∧ (body.status = true →
        (postPrinting000 body (.ok buf) d).1.printResult = some d) := by
  cases hb : body.status with
  | false => simp [postPrinting000, h, hb]
  | true => simp [postPrinting000, h, hb]

/-- Claim C4 witness: a failing dispatch result still gets a 200
success-true response that nests it. -/
theorem c4_success_despite_dispatch_failure_witness :
    ((postPrinting000 c4Body (.ok 1) ⟨false, "Printing error: x"⟩).1.status = 200
      ∧ (postPrinting000 c4Body (.ok 1) ⟨false, "Printing error: x"⟩).1.success = true)
    ∧ (c4Body.status = true →
        (postPrinting000 c4Body (.ok 1) ⟨false, "Printing error: x"⟩).1.printResult =
          some ⟨false, "Printing error: x"⟩) :=
  c4_success_despite_dispatch_failure c4Body
    [⟨.vstr "Pen", .vnum 2, .vnum 3, []⟩] 1 ⟨false, "Printing error: x"⟩ rfl

/-- Claim C9: with no print target (`printerId` absent) and a successful
render, the index.js handler responds 200 `{success:true, printResult:null}`
with the default message and performs no dispatch call at all (no
subprocess, no network). -/
theorem c9_no_printer_no_dispatch (body : ReqBodyIndex) (its : List RawItem)
    (buf : Nat) (d : PrintResult) (h1 : body.items = some its)
    (h2 : body.printerId = none) :
    postPrintingIndex body (.ok buf) d =
      (⟨200, true, none, none, some "PDF generated successfully"⟩, []) := by
  simp [postPrintingIndex, h1, h2, responseMessage]

/-- Claim C9 witness. -/
theorem c9_no_printer_no_dispatch_witness :
    postPrintingIndex c9Body (.ok 0) ⟨false, "ignored"⟩ =
      (⟨200, true, none, none, some "PDF generated successfully"⟩, []) :=
  c9_no_printer_no_dispatch c9Body [] 0 ⟨false, "ignored"⟩ rfl rfl

end Printing

end
